import Mathlib

/-!
Verification development for the PocketRelayQoS service.

The Rust sources (src/udp.rs, src/service.rs, src/http.rs, src/firewall.rs)
are shallowly embedded below.  Byte buffers are `List Nat` whose elements are
bytes (< 256); machine integers are `Nat` with explicit `% 2 ^ w` where the
source wraps.  Network and randomness effects are passed in explicitly: the
UDP handler receives the already-resolved public address option, the token
generators receive the stream of random draws, and the public-address
resolver receives the per-endpoint outcomes.
-/

namespace PocketRelayQoS

/-- Big-endian encoding of a `u32` into four bytes, as `bytes::BufMut::put_u32`. -/
def u32_be (n : Nat) : List Nat :=
  [n / 2 ^ 24 % 256, n / 2 ^ 16 % 256, n / 2 ^ 8 % 256, n % 256]

/-- Little-endian encoding of a `u32` into four bytes, as `put_u32_le`. -/
def u32_le (n : Nat) : List Nat :=
  [n % 256, n / 2 ^ 8 % 256, n / 2 ^ 16 % 256, n / 2 ^ 24 % 256]

/-- Big-endian encoding of a `u16` into two bytes, as `put_u16`. -/
def u16_be (n : Nat) : List Nat :=
  [n / 2 ^ 8 % 256, n % 256]

/-- Big-endian `u32` read from the front of a buffer, as `bytes::Buf::get_u32`.
The underflow case (fewer than 4 bytes, where the Rust call panics) is mapped
to `0`; the embedding of `handle` checks the length and signals the panic
itself before ever reaching that case. -/
def get_u32_be : List Nat → Nat
  | b0 :: b1 :: b2 :: b3 :: _ => ((b0 * 256 + b1) * 256 + b2) * 256 + b3
  | _ => 0

/-- Little-endian `u32` read from the front of a buffer, as `get_u32_le`. -/
def get_u32_le : List Nat → Nat
  | b0 :: b1 :: b2 :: b3 :: _ => ((b3 * 256 + b2) * 256 + b1) * 256 + b0
  | _ => 0

/-- An IPv4 address as its four octets (`std::net::Ipv4Addr`).  Octets are
reduced `% 256` when serialized, modelling the `u8` fields. -/
structure Ipv4 where
  o0 : Nat
  o1 : Nat
  o2 : Nat
  o3 : Nat
deriving DecidableEq, Repr

/-- `Ipv4Addr::octets` as a four-byte list. -/
def Ipv4.octets (ip : Ipv4) : List Nat :=
  [ip.o0 % 256, ip.o1 % 256, ip.o2 % 256, ip.o3 % 256]

/-- `Ipv4Addr::is_loopback`: first octet 127. -/
def Ipv4.is_loopback (ip : Ipv4) : Bool :=
  ip.o0 = 127

/-- `Ipv4Addr::is_private`: 10/8, 172.16/12 or 192.168/16. -/
def Ipv4.is_private (ip : Ipv4) : Bool :=
  ip.o0 = 10 ∨ (ip.o0 = 172 ∧ 16 ≤ ip.o1 ∧ ip.o1 ≤ 31) ∨ (ip.o0 = 192 ∧ ip.o1 = 168)

/-- A stored QoS correlation record (`service.rs`, `QRequestData`). -/
structure QRequestData where
  q_type : Nat
  client_port : Nat
  version : Nat
deriving DecidableEq, Repr

/-- The `m1` table of `QService`: `(request_id, request_secret)` keys to
`QRequestData`, embedded as an association list. -/
abbrev QosTable := List ((Nat × Nat) × QRequestData)

/-- `QService::_get_request_data`: read-only association lookup in `m1`. -/
def _get_request_data (m : QosTable) (id secret : Nat) : Option QRequestData :=
  match m with
  | [] => none
  | (k, v) :: rest => if k = (id, secret) then some v else _get_request_data rest id secret

/-- Outcome of handling one QoS datagram (`udp.rs`, `handle`):
the task returns without replying, panics, or sends back one datagram. -/
inductive HandleResult where
  /-- The handler returned without sending anything (short packet). -/
  | dropped : HandleResult
  /-- The handler panicked (buffer underrun in `get_u32`, or overflow in
  `payload.len() - 6`); the spawned task aborts and nothing is sent. -/
  | panicked : HandleResult
  /-- The handler sent this datagram back to the sender. -/
  | sent : List Nat → HandleResult
deriving DecidableEq, Repr

/-- Whether a `HandleResult` sent a datagram. -/
def HandleResult.isSent : HandleResult → Bool
  | .sent _ => true
  | _ => false

/-- The `public_ip` computed in `udp.rs` lines 172-178: start from the
packet's source address; only when `cfg!(debug_assertions)` holds and the
source is loopback or private is the `public_address()` result (passed here
as `resolved`) substituted when available. -/
def effective_public_ip (dbg : Bool) (resolved : Option Ipv4) (srcIp : Ipv4) : Ipv4 :=
  if dbg ∧ (srcIp.is_loopback ∨ srcIp.is_private) then resolved.getD srcIp else srcIp

/-- The UBPS constant written into V2 responses:
`u32::from_be_bytes([0x00, 0x5b, 0x8d, 0x80])`. -/
def UBPS : Nat := 0x005B8D80

/-- `udp.rs::handle`, for an IPv4 sender.  Parameters: the correlation
service table (unused by the source, whose parameter is named `_service`),
the sender's address and port, the debug-assertions flag together with the
`public_address()` outcome, and the datagram bytes.  Packets under 16 bytes
are dropped; the sentinel token `(1, 0)` selects the V1 branch, anything
else the V2 branch.  A body shorter than 4 bytes panics in `get_u32`; in the
V2 branch a payload shorter than 6 bytes makes `payload.len() - 6` overflow,
a panic under debug assertions (under release the subtraction wraps and the
`truncate` is a no-op; the panic semantics is modelled). -/
def handle (_service : QosTable) (srcIp : Ipv4) (srcPort : Nat) (dbg : Bool)
    (resolved : Option Ipv4) (buffer : List Nat) : HandleResult :=
  if buffer.length < 16 then .dropped
  else
    let u1 := get_u32_be buffer
    let request_id := get_u32_be (buffer.drop 4)
    let request_secret := get_u32_be (buffer.drop 8)
    let probe_number := get_u32_be (buffer.drop 12)
    let headerBytes := u32_be u1 ++ u32_be request_id ++ u32_be request_secret ++
      u32_be probe_number
    let body := buffer.drop 16
    let public_ip := effective_public_ip dbg resolved srcIp
    if request_id = 1 ∧ request_secret = 0 then
      if body.length < 4 then .panicked
      else
        let timestamp := get_u32_be body
        .sent (headerBytes ++ u32_be timestamp ++ public_ip.octets ++
          u16_be srcPort ++ [0, 0, 0, 0])
    else
      if body.length < 4 then .panicked
      else
        let probe_count := get_u32_be body
        let payload := body.drop 4
        if payload.length < 6 then .panicked
        else
          .sent (headerBytes ++ u32_le probe_count ++ u32_be UBPS ++
            u16_be srcPort ++ payload.take (payload.length - 6))

/-- The wrapping increment performed on the process-wide `NEXT_ID` atomic by
`fetch_add(1)`: `AtomicU32` arithmetic is modulo `2 ^ 32`. -/
def nextCounter (c : Nat) : Nat :=
  (c + 1) % 2 ^ 32

/-- The initial value of `NEXT_ID` (`service.rs` line 15). -/
def NEXT_ID_INIT : Nat := 2

/-- Membership test on the association-list table, as `HashMap::contains_key`. -/
def containsKeyQos (m : QosTable) (k : Nat × Nat) : Bool :=
  match m with
  | [] => false
  | (k2, _) :: rest => k2 = k ∨ containsKeyQos rest k

/-- The secret-drawing loop of `create_request_data`: each random `u32` draw
is cast through `u16` (keeping the low 16 bits) and re-rolled while the
resulting key is already present.  The infinite `OsRng` stream is passed as
an explicit list of draws; `none` means the modelled draws were exhausted
before a fresh secret was found. -/
def findSecretQos (m : QosTable) (id : Nat) : List Nat → Option Nat
  | [] => none
  | d :: rest =>
    let secret := d % 2 ^ 16
    if containsKeyQos m (id, secret) then findSecretQos m id rest else some secret

/-- `QService::create_request_data`.  Explicit state: `m` is the `m1` table,
`c` the current `NEXT_ID` value (always < 2 ^ 32), `draws` the random stream.
Returns the issued token, the updated table, and the updated counter. -/
def create_request_data (m : QosTable) (c : Nat) (q_type client_port version : Nat)
    (draws : List Nat) : Option ((Nat × Nat) × QosTable × Nat) :=
  let id := c
  match findSecretQos m id draws with
  | none => none
  | some secret =>
    some ((id, secret), ((id, secret), ⟨q_type, client_port, version⟩) :: m, nextCounter c)

/-- A stored firewall correlation record (`service.rs`, `QFirewallData`):
the cloneable sender handle and the take-once receiver handle of one
unbounded channel.  Handles are channel identifiers. -/
structure QFirewallData where
  tx : Nat
  rx : Option Nat
deriving DecidableEq, Repr

/-- The `m2` table of `QService`. -/
abbrev FirewallTable := List ((Nat × Nat) × QFirewallData)

/-- Association lookup in `m2`, as `HashMap::get`. -/
def lookupFirewall (m : FirewallTable) (id secret : Nat) : Option QFirewallData :=
  match m with
  | [] => none
  | (k, v) :: rest => if k = (id, secret) then some v else lookupFirewall rest id secret

/-- Membership test on `m2`, as `HashMap::contains_key`. -/
def containsKeyFirewall (m : FirewallTable) (k : Nat × Nat) : Bool :=
  match m with
  | [] => false
  | (k2, _) :: rest => k2 = k ∨ containsKeyFirewall rest k

/-- The secret-drawing loop of `create_firewall_data` (same shape as the QoS
one, checked against `m2`). -/
def findSecretFirewall (m : FirewallTable) (id : Nat) : List Nat → Option Nat
  | [] => none
  | d :: rest =>
    let secret := d % 2 ^ 16
    if containsKeyFirewall m (id, secret) then findSecretFirewall m id rest else some secret

/-- `QService::create_firewall_data`.  `ch` identifies the fresh
`mpsc::unbounded_channel` pair: the record stores its sender and (available)
receiver. -/
def create_firewall_data (m : FirewallTable) (c : Nat) (ch : Nat)
    (draws : List Nat) : Option ((Nat × Nat) × FirewallTable × Nat) :=
  let id := c
  match findSecretFirewall m id draws with
  | none => none
  | some secret =>
    some ((id, secret), ((id, secret), ⟨ch, some ch⟩) :: m, nextCounter c)

/-- `QService::get_firewall_tx`: clone the sender handle for a token. -/
def get_firewall_tx (m : FirewallTable) (id secret : Nat) : Option Nat :=
  (lookupFirewall m id secret).map (fun d => d.tx)

/-- The in-place mutation performed by `value.rx.take()`: every entry under
the key keeps its sender and loses its receiver. -/
def clearRx (m : FirewallTable) (id secret : Nat) : FirewallTable :=
  match m with
  | [] => []
  | (k, d) :: rest =>
    if k = (id, secret) then (k, ⟨d.tx, none⟩) :: clearRx rest id secret
    else (k, d) :: clearRx rest id secret

/-- `QService::take_firewall_rx`: `get_mut` on `m2` then `Option::take` on
the stored receiver.  Returns the taken receiver (if any) and the table
after the mutation. -/
def take_firewall_rx (m : FirewallTable) (id secret : Nat) : Option Nat × FirewallTable :=
  match lookupFirewall m id secret with
  | none => (none, m)
  | some d => (d.rx, clearRx m id secret)

/-- A socket address (IPv4 address, port), as observed by the firewall
ingress and pushed onto the channel. -/
abbrev SockAddr := Ipv4 × Nat

/-- The accumulation loop of `http.rs::firetype` (lines 239-250): `acc` is
the `addrs` vector, `msgs` the sequence of addresses the channel delivers
before it closes.  Each received address is pushed; the loop exits when the
channel closes (list exhausted) or as soon as 5 addresses are held. -/
def firetypeLoop (acc : List SockAddr) : List SockAddr → List SockAddr
  | [] => acc
  | a :: rest =>
    let acc2 := acc ++ [a]
    if 5 ≤ acc2.length then acc2 else firetypeLoop acc2 rest

/-- The address sequence collected by `firetype` for a channel that delivers
`msgs` before closing: the loop started from the empty vector. -/
def firetypeCollect (msgs : List SockAddr) : List SockAddr :=
  firetypeLoop [] msgs

/-- `udp.rs::PublicAddrCache`.  Times are seconds since the epoch. -/
inductive PublicAddrCache where
  | unset : PublicAddrCache
  | set : Ipv4 → Nat → PublicAddrCache
deriving DecidableEq, Repr

/-- `ADDR_CACHE_TIME`: 30 minutes, in seconds. -/
def ADDR_CACHE_TIME : Nat := 60 * 30

/-- The endpoint loop of `public_address` (`udp.rs` lines 272-287): each
element is the outcome of one external "what is my IP" attempt — `some ip`
when the HTTP GET succeeded, its text was read and the trimmed body parsed
as an IPv4 address, `none` for any failure (request error, text error, or
parse failure), which makes the loop continue; the first success breaks. -/
def tryEndpoints : List (Option Ipv4) → Option Ipv4
  | [] => none
  | some ip :: _ => some ip
  | none :: rest => tryEndpoints rest

/-- `udp.rs::public_address`.  Explicit state: the cache cell, the current
time, and the per-endpoint outcomes.  A fresh (unexpired) cache entry is
returned at once; otherwise the endpoints are tried in order, a success is
cached for 30 minutes, and total failure returns `none` leaving the cache
unchanged.  The source has no further fallback after the endpoint list. -/
def public_address (cache : PublicAddrCache) (now : Nat)
    (outcomes : List (Option Ipv4)) : Option Ipv4 × PublicAddrCache :=
  let fresh : Bool :=
    match cache with
    | .set _ expires => now < expires
    | .unset => false
  if fresh then
    match cache with
    | .set value _ => (some value, cache)
    | .unset => (none, cache)
  else
    match tryEndpoints outcomes with
    | none => (none, cache)
    | some value => (some value, .set value (now + ADDR_CACHE_TIME))

/-- Modelled from the spec: the §4.2 `resolve()` contract, which differs
from `public_address` in the source by one step — "on total failure of all
external endpoints, fall back to the machine's local non-loopback IPv4
interface address" (`localAddr`, `none` when no such interface address is
obtainable).  Used only to compare the spec's resolver against the code's. -/
def resolve_spec (cache : PublicAddrCache) (now : Nat)
    (outcomes : List (Option Ipv4)) (localAddr : Option Ipv4) :
    Option Ipv4 × PublicAddrCache :=
  let fresh : Bool :=
    match cache with
    | .set _ expires => now < expires
    | .unset => false
  if fresh then
    match cache with
    | .set value _ => (some value, cache)
    | .unset => (none, cache)
  else
    match tryEndpoints outcomes with
    | some value => (some value, .set value (now + ADDR_CACHE_TIME))
    | none =>
      match localAddr with
      | some value => (some value, .set value (now + ADDR_CACHE_TIME))
      | none => (none, cache)

/-! ## General lemmas about the byte codecs -/

theorem u32_be_length (n : Nat) : (u32_be n).length = 4 := rfl

theorem u32_le_length (n : Nat) : (u32_le n).length = 4 := rfl

theorem u16_be_length (n : Nat) : (u16_be n).length = 2 := rfl

theorem get_u32_be_of_u32_be (n : Nat) (rest : List Nat) (h : n < 2 ^ 32) :
    get_u32_be (u32_be n ++ rest) = n := by
  simp only [u32_be, List.cons_append, List.nil_append, get_u32_be]
  omega

theorem get_u32_le_of_u32_le (n : Nat) (rest : List Nat) (h : n < 2 ^ 32) :
    get_u32_le (u32_le n ++ rest) = n := by
  simp only [u32_le, List.cons_append, List.nil_append, get_u32_le]
  omega

theorem drop4_u32_be (n : Nat) (rest : List Nat) : (u32_be n ++ rest).drop 4 = rest := rfl

theorem drop4_u32_le (n : Nat) (rest : List Nat) : (u32_le n ++ rest).drop 4 = rest := rfl

/-! ## Evaluation lemmas for `handle` -/

/-- Evaluation of `handle` on a well-formed correlated (V2) probe: header
fields `u1, rid, sec, probe`, probe count `N`, payload `P` of at least 6
bytes.  The response echoes the header, re-encodes `N` little-endian, writes
the UBPS constant and the sender's source port, and echoes the payload with
its last 6 bytes removed. -/
theorem handle_v2_eq (m : QosTable) (srcIp : Ipv4) (srcPort : Nat) (dbg : Bool)
    (resolved : Option Ipv4) (u1 rid sec probe N : Nat) (P : List Nat)
    (hu1 : u1 < 2 ^ 32) (hrid : rid < 2 ^ 32) (hsec : sec < 2 ^ 32)
    (hprobe : probe < 2 ^ 32) (hN : N < 2 ^ 32)
    (hns : ¬(rid = 1 ∧ sec = 0)) (hP : 6 ≤ P.length) :
    handle m srcIp srcPort dbg resolved
      (u32_be u1 ++ (u32_be rid ++ (u32_be sec ++ (u32_be probe ++ (u32_be N ++ P))))) =
    .sent (u32_be u1 ++ (u32_be rid ++ (u32_be sec ++ (u32_be probe ++
      (u32_le N ++ (u32_be UBPS ++ (u16_be srcPort ++ P.take (P.length - 6)))))))) := by
  have hd4 : (u32_be u1 ++ (u32_be rid ++ (u32_be sec ++ (u32_be probe ++
      (u32_be N ++ P))))).drop 4 =
      u32_be rid ++ (u32_be sec ++ (u32_be probe ++ (u32_be N ++ P))) := rfl
  have hd8 : (u32_be u1 ++ (u32_be rid ++ (u32_be sec ++ (u32_be probe ++
      (u32_be N ++ P))))).drop 8 =
      u32_be sec ++ (u32_be probe ++ (u32_be N ++ P)) := rfl
  have hd12 : (u32_be u1 ++ (u32_be rid ++ (u32_be sec ++ (u32_be probe ++
      (u32_be N ++ P))))).drop 12 =
      u32_be probe ++ (u32_be N ++ P) := rfl
  have hd16 : (u32_be u1 ++ (u32_be rid ++ (u32_be sec ++ (u32_be probe ++
      (u32_be N ++ P))))).drop 16 =
      u32_be N ++ P := rfl
  have g1 : get_u32_be (u32_be u1 ++ (u32_be rid ++ (u32_be sec ++ (u32_be probe ++
      (u32_be N ++ P))))) = u1 := get_u32_be_of_u32_be u1 _ hu1
  have g2 : get_u32_be (u32_be rid ++ (u32_be sec ++ (u32_be probe ++ (u32_be N ++ P)))) =
      rid := get_u32_be_of_u32_be rid _ hrid
  have g3 : get_u32_be (u32_be sec ++ (u32_be probe ++ (u32_be N ++ P))) =
      sec := get_u32_be_of_u32_be sec _ hsec
  have g4 : get_u32_be (u32_be probe ++ (u32_be N ++ P)) =
      probe := get_u32_be_of_u32_be probe _ hprobe
  have g5 : get_u32_be (u32_be N ++ P) = N := get_u32_be_of_u32_be N _ hN
  have hlen : (u32_be u1 ++ (u32_be rid ++ (u32_be sec ++ (u32_be probe ++
      (u32_be N ++ P))))).length = 20 + P.length := by
    simp only [List.length_append, u32_be_length]
    omega
  have h16 : ¬ ((u32_be u1 ++ (u32_be rid ++ (u32_be sec ++ (u32_be probe ++
      (u32_be N ++ P))))).length < 16) := by omega
  have hb4 : ¬ ((u32_be N ++ P).length < 4) := by
    simp only [List.length_append, u32_be_length]
    omega
  have hp6 : ¬ (P.length < 6) := by omega
  simp only [handle, g1, g2, g3, g4, g5, hd4, hd8, hd12, hd16, drop4_u32_be]
  rw [if_neg h16, if_neg hns, if_neg hb4, if_neg hp6]
  simp [List.append_assoc]

/-- Evaluation of `handle` on a sentinel (V1) address probe: token `(1, 0)`,
a big-endian timestamp and arbitrary extra body bytes.  The response echoes
the header and timestamp, then writes the effective public address, the
sender's source port, and four zero bytes. -/
theorem handle_v1_eq (m : QosTable) (srcIp : Ipv4) (srcPort : Nat) (dbg : Bool)
    (resolved : Option Ipv4) (u1 probe ts : Nat) (extra : List Nat)
    (hu1 : u1 < 2 ^ 32) (hprobe : probe < 2 ^ 32) (hts : ts < 2 ^ 32) :
    handle m srcIp srcPort dbg resolved
      (u32_be u1 ++ (u32_be 1 ++ (u32_be 0 ++ (u32_be probe ++ (u32_be ts ++ extra))))) =
    .sent (u32_be u1 ++ (u32_be 1 ++ (u32_be 0 ++ (u32_be probe ++ (u32_be ts ++
      ((effective_public_ip dbg resolved srcIp).octets ++
        (u16_be srcPort ++ [0, 0, 0, 0]))))))) := by
  have hd4 : (u32_be u1 ++ (u32_be 1 ++ (u32_be 0 ++ (u32_be probe ++
      (u32_be ts ++ extra))))).drop 4 =
      u32_be 1 ++ (u32_be 0 ++ (u32_be probe ++ (u32_be ts ++ extra))) := rfl
  have hd8 : (u32_be u1 ++ (u32_be 1 ++ (u32_be 0 ++ (u32_be probe ++
      (u32_be ts ++ extra))))).drop 8 =
      u32_be 0 ++ (u32_be probe ++ (u32_be ts ++ extra)) := rfl
  have hd12 : (u32_be u1 ++ (u32_be 1 ++ (u32_be 0 ++ (u32_be probe ++
      (u32_be ts ++ extra))))).drop 12 =
      u32_be probe ++ (u32_be ts ++ extra) := rfl
  have hd16 : (u32_be u1 ++ (u32_be 1 ++ (u32_be 0 ++ (u32_be probe ++
      (u32_be ts ++ extra))))).drop 16 =
      u32_be ts ++ extra := rfl
  have g1 : get_u32_be (u32_be u1 ++ (u32_be 1 ++ (u32_be 0 ++ (u32_be probe ++
      (u32_be ts ++ extra))))) = u1 := get_u32_be_of_u32_be u1 _ hu1
  have g2 : get_u32_be (u32_be 1 ++ (u32_be 0 ++ (u32_be probe ++ (u32_be ts ++ extra)))) =
      1 := get_u32_be_of_u32_be 1 _ (by norm_num)
  have g3 : get_u32_be (u32_be 0 ++ (u32_be probe ++ (u32_be ts ++ extra))) =
      0 := get_u32_be_of_u32_be 0 _ (by norm_num)
  have g4 : get_u32_be (u32_be probe ++ (u32_be ts ++ extra)) =
      probe := get_u32_be_of_u32_be probe _ hprobe
  have g5 : get_u32_be (u32_be ts ++ extra) = ts := get_u32_be_of_u32_be ts _ hts
  have hlen : (u32_be u1 ++ (u32_be 1 ++ (u32_be 0 ++ (u32_be probe ++
      (u32_be ts ++ extra))))).length = 20 + extra.length := by
    simp only [List.length_append, u32_be_length]
    omega
  have h16 : ¬ ((u32_be u1 ++ (u32_be 1 ++ (u32_be 0 ++ (u32_be probe ++
      (u32_be ts ++ extra))))).length < 16) := by omega
  have hb4 : ¬ ((u32_be ts ++ extra).length < 4) := by
    simp only [List.length_append, u32_be_length]
    omega
  simp only [handle, g1, g2, g3, g4, g5, hd4, hd8, hd12, hd16]
  rw [if_neg h16, if_pos ⟨trivial, trivial⟩, if_neg hb4]
  simp [List.append_assoc]

/-! ## Claim C4 -/

/-- C4: for every correlated (V2) QoS probe with probe count `N` and padding
payload `P` (of at least the 6 bytes the engine trims), the response bytes
are the 16-byte big-endian header echoed, `N` encoded little-endian, the
constant `0x005B8D80` big-endian, a port in big-endian, and `P` with its
last 6 bytes removed; the total response length is
`16 + 4 + 4 + 2 + (len P - 6)` and decoding the probe-count field
little-endian yields `N`. -/
theorem c4_v2_response_layout (m : QosTable) (srcIp : Ipv4) (srcPort : Nat) (dbg : Bool)
    (resolved : Option Ipv4) (u1 rid sec probe N : Nat) (P : List Nat)
    (hu1 : u1 < 2 ^ 32) (hrid : rid < 2 ^ 32) (hsec : sec < 2 ^ 32)
    (hprobe : probe < 2 ^ 32) (hN : N < 2 ^ 32)
    (hns : ¬(rid = 1 ∧ sec = 0)) (hP : 6 ≤ P.length) :
    handle m srcIp srcPort dbg resolved
      (u32_be u1 ++ u32_be rid ++ u32_be sec ++ u32_be probe ++ u32_be N ++ P) =
      .sent (u32_be u1 ++ u32_be rid ++ u32_be sec ++ u32_be probe ++ u32_le N ++
        u32_be UBPS ++ u16_be srcPort ++ P.take (P.length - 6)) ∧
    (u32_be u1 ++ u32_be rid ++ u32_be sec ++ u32_be probe ++ u32_le N ++
      u32_be UBPS ++ u16_be srcPort ++ P.take (P.length - 6)).length =
      16 + 4 + 4 + 2 + (P.length - 6) ∧
    get_u32_le ((u32_be u1 ++ u32_be rid ++ u32_be sec ++ u32_be probe ++ u32_le N ++
      u32_be UBPS ++ u16_be srcPort ++ P.take (P.length - 6)).drop 16) = N := by
  have htake : (P.take (P.length - 6)).length = P.length - 6 := by
    rw [List.length_take]
    omega
  refine ⟨?_, ?_, ?_⟩
  · have h := handle_v2_eq m srcIp srcPort dbg resolved u1 rid sec probe N P
      hu1 hrid hsec hprobe hN hns hP
    have hb : u32_be u1 ++ u32_be rid ++ u32_be sec ++ u32_be probe ++ u32_be N ++ P =
        u32_be u1 ++ (u32_be rid ++ (u32_be sec ++ (u32_be probe ++ (u32_be N ++ P)))) := by
      simp [List.append_assoc]
    rw [hb, h] <;> simp [List.append_assoc]
  · simp only [List.length_append, u32_be_length, u32_le_length, u16_be_length, htake] <;> omega
  · have hb : u32_be u1 ++ u32_be rid ++ u32_be sec ++ u32_be probe ++ u32_le N ++
        u32_be UBPS ++ u16_be srcPort ++ P.take (P.length - 6) =
        u32_be u1 ++ (u32_be rid ++ (u32_be sec ++ (u32_be probe ++ (u32_le N ++
          (u32_be UBPS ++ (u16_be srcPort ++ P.take (P.length - 6))))))) := by
      simp [List.append_assoc]
    rw [hb]
    have hdrop : (u32_be u1 ++ (u32_be rid ++ (u32_be sec ++ (u32_be probe ++ (u32_le N ++
        (u32_be UBPS ++ (u16_be srcPort ++ P.take (P.length - 6)))))))).drop 16 =
        u32_le N ++ (u32_be UBPS ++ (u16_be srcPort ++ P.take (P.length - 6))) := rfl
    rw [hdrop]
    exact get_u32_le_of_u32_le N _ hN

/-- C4 witness: the amended statement instantiated at a concrete probe
(query, a 50-byte payload, source port 5555). -/
theorem c4_witness :
    handle [] ⟨203, 0, 113, 9⟩ 5555 false none
      (u32_be 2 ++ u32_be 2 ++ u32_be 5 ++ u32_be 10 ++ u32_be 10 ++ List.replicate 50 7) =
      .sent (u32_be 2 ++ u32_be 2 ++ u32_be 5 ++ u32_be 10 ++ u32_le 10 ++
        u32_be UBPS ++ u16_be 5555 ++ (List.replicate 50 7).take ((List.replicate 50 7).length - 6)) ∧
    (u32_be 2 ++ u32_be 2 ++ u32_be 5 ++ u32_be 10 ++ u32_le 10 ++
      u32_be UBPS ++ u16_be 5555 ++ (List.replicate 50 7).take ((List.replicate 50 7).length - 6)).length =
      16 + 4 + 4 + 2 + ((List.replicate 50 7).length - 6) ∧
    get_u32_le ((u32_be 2 ++ u32_be 2 ++ u32_be 5 ++ u32_be 10 ++ u32_le 10 ++
      u32_be UBPS ++ u16_be 5555 ++ (List.replicate 50 7).take ((List.replicate 50 7).length - 6)).drop 16) = 10 :=
  c4_v2_response_layout [] ⟨203, 0, 113, 9⟩ 5555 false none 2 2 5 10 10
    (List.replicate 50 7) (by norm_num) (by norm_num) (by norm_num) (by norm_num)
    (by norm_num) (by decide) (by decide)

/-! ## Claim C5 -/

/-- C5: for every sentinel QoS probe (`request_id = 1`, `request_secret = 0`)
carrying a big-endian timestamp, the response is exactly 30 bytes: the
16-byte header echoed unchanged, the client timestamp echoed unchanged, an
IPv4 address, the sender's source port big-endian, then 4 zero bytes. -/
theorem c5_v1_response_layout (m : QosTable) (srcIp : Ipv4) (srcPort : Nat) (dbg : Bool)
    (resolved : Option Ipv4) (u1 probe ts : Nat) (extra : List Nat)
    (hu1 : u1 < 2 ^ 32) (hprobe : probe < 2 ^ 32) (hts : ts < 2 ^ 32) :
    handle m srcIp srcPort dbg resolved
      (u32_be u1 ++ u32_be 1 ++ u32_be 0 ++ u32_be probe ++ u32_be ts ++ extra) =
      .sent (u32_be u1 ++ u32_be 1 ++ u32_be 0 ++ u32_be probe ++ u32_be ts ++
        (effective_public_ip dbg resolved srcIp).octets ++ u16_be srcPort ++ [0, 0, 0, 0]) ∧
    (u32_be u1 ++ u32_be 1 ++ u32_be 0 ++ u32_be probe ++ u32_be ts ++
      (effective_public_ip dbg resolved srcIp).octets ++ u16_be srcPort ++
      [0, 0, 0, 0]).length = 30 := by
  constructor
  · have h := handle_v1_eq m srcIp srcPort dbg resolved u1 probe ts extra hu1 hprobe hts
    have hb : u32_be u1 ++ u32_be 1 ++ u32_be 0 ++ u32_be probe ++ u32_be ts ++ extra =
        u32_be u1 ++ (u32_be 1 ++ (u32_be 0 ++ (u32_be probe ++ (u32_be ts ++ extra)))) := by
      simp [List.append_assoc]
    rw [hb, h] <;> simp [List.append_assoc]
  · simp [List.length_append, u32_be_length, u16_be_length, Ipv4.octets]

/-- C5 witness: the spec's scenario — sentinel header with probe number 7
and timestamp `0x64` — answered by the 30-byte V1 response. -/
theorem c5_witness :
    handle [] ⟨203, 0, 113, 9⟩ 41000 false none
      (u32_be 2 ++ u32_be 1 ++ u32_be 0 ++ u32_be 7 ++ u32_be 100 ++ []) =
      .sent (u32_be 2 ++ u32_be 1 ++ u32_be 0 ++ u32_be 7 ++ u32_be 100 ++
        (effective_public_ip false none ⟨203, 0, 113, 9⟩).octets ++ u16_be 41000 ++
        [0, 0, 0, 0]) ∧
    (u32_be 2 ++ u32_be 1 ++ u32_be 0 ++ u32_be 7 ++ u32_be 100 ++
      (effective_public_ip false none ⟨203, 0, 113, 9⟩).octets ++ u16_be 41000 ++
      [0, 0, 0, 0]).length = 30 :=
  c5_v1_response_layout [] ⟨203, 0, 113, 9⟩ 41000 false none 2 7 100 []
    (by norm_num) (by norm_num) (by norm_num)

/-! ## Claim C1 -/

/-- C1 counterexample: a QoS record is stored for token `(2, 5)` with client
port 7777, and a correlated probe for that token arrives from source port
5555; the V2 response built by `handle` carries the observed source port
5555 (bytes 24-25 are `u16_be 5555`), not the stored client port 7777. -/
theorem c1_counterexample :
    _get_request_data [((2, 5), ⟨2, 7777, 1⟩)] 2 5 = some ⟨2, 7777, 1⟩ ∧
    handle [((2, 5), ⟨2, 7777, 1⟩)] ⟨203, 0, 113, 9⟩ 5555 false none
      (u32_be 2 ++ u32_be 2 ++ u32_be 5 ++ u32_be 10 ++ u32_be 10 ++ List.replicate 50 7) =
      .sent (u32_be 2 ++ u32_be 2 ++ u32_be 5 ++ u32_be 10 ++ u32_le 10 ++ u32_be UBPS ++
        u16_be 5555 ++ List.replicate 44 7) ∧
    ((u32_be 2 ++ u32_be 2 ++ u32_be 5 ++ u32_be 10 ++ u32_le 10 ++ u32_be UBPS ++
      u16_be 5555 ++ List.replicate 44 7).drop 24).take 2 = u16_be 5555 ∧
    u16_be 5555 ≠ u16_be 7777 := by
  decide

/-- C1 amended: for every correlated (non-sentinel) QoS probe whose token
has a stored `QRequestData` with client port `p`, the port field of the V2
response (the two bytes at offset 24) is the packet's observed UDP source
port, not the stored client port `p`: the stored record is never consulted. -/
theorem c1_port_is_observed_source (m : QosTable) (srcIp : Ipv4) (srcPort : Nat)
    (dbg : Bool) (resolved : Option Ipv4) (u1 rid sec probe N q p v : Nat) (P : List Nat)
    (hu1 : u1 < 2 ^ 32) (hrid : rid < 2 ^ 32) (hsec : sec < 2 ^ 32)
    (hprobe : probe < 2 ^ 32) (hN : N < 2 ^ 32)
    (hns : ¬(rid = 1 ∧ sec = 0)) (hP : 6 ≤ P.length)
    (hstore : _get_request_data m rid sec = some ⟨q, p, v⟩) :
    ∃ pre post, handle m srcIp srcPort dbg resolved
      (u32_be u1 ++ u32_be rid ++ u32_be sec ++ u32_be probe ++ u32_be N ++ P) =
      .sent (pre ++ u16_be srcPort ++ post) ∧ pre.length = 24 := by
  refine ⟨u32_be u1 ++ u32_be rid ++ u32_be sec ++ u32_be probe ++ u32_le N ++ u32_be UBPS,
    P.take (P.length - 6), ?_, ?_⟩
  · have h := handle_v2_eq m srcIp srcPort dbg resolved u1 rid sec probe N P
      hu1 hrid hsec hprobe hN hns hP
    have hb : u32_be u1 ++ u32_be rid ++ u32_be sec ++ u32_be probe ++ u32_be N ++ P =
        u32_be u1 ++ (u32_be rid ++ (u32_be sec ++ (u32_be probe ++ (u32_be N ++ P)))) := by
      simp [List.append_assoc]
    rw [hb, h] <;> simp [List.append_assoc]
  · simp [List.length_append, u32_be_length, u32_le_length]

/-- C1 witness: the amended statement at the counterexample's input. -/
theorem c1_witness :
    ∃ pre post, handle [((2, 5), ⟨2, 7777, 1⟩)] ⟨203, 0, 113, 9⟩ 5555 false none
      (u32_be 2 ++ u32_be 2 ++ u32_be 5 ++ u32_be 10 ++ u32_be 10 ++ List.replicate 50 7) =
      .sent (pre ++ u16_be 5555 ++ post) ∧ pre.length = 24 :=
  c1_port_is_observed_source [((2, 5), ⟨2, 7777, 1⟩)] ⟨203, 0, 113, 9⟩ 5555 false none
    2 2 5 10 10 2 7777 1 (List.replicate 50 7) (by norm_num) (by norm_num) (by norm_num)
    (by norm_num) (by norm_num) (by decide) (by decide) (by decide)

/-! ## Claim C2 -/

/-- C2 counterexample: no record is stored for token `(2, 5)` (the table is
empty), yet `handle` answers the correlated probe with a response datagram
instead of dropping it. -/
theorem c2_counterexample :
    _get_request_data [] 2 5 = none ∧
    (handle [] ⟨203, 0, 113, 9⟩ 5555 false none
      (u32_be 2 ++ u32_be 2 ++ u32_be 5 ++ u32_be 10 ++ u32_be 10 ++
        List.replicate 50 7)).isSent = true := by
  decide

/-- C2 amended: the QoS engine performs no lookup at all — handling a
correlated probe is independent of the correlation table, and a well-formed
probe whose token has no stored record is answered exactly as if the record
existed, not dropped. -/
theorem c2_no_lookup_always_responds (m : QosTable) (srcIp : Ipv4) (srcPort : Nat)
    (dbg : Bool) (resolved : Option Ipv4) (u1 rid sec probe N : Nat) (P : List Nat)
    (hu1 : u1 < 2 ^ 32) (hrid : rid < 2 ^ 32) (hsec : sec < 2 ^ 32)
    (hprobe : probe < 2 ^ 32) (hN : N < 2 ^ 32)
    (hns : ¬(rid = 1 ∧ sec = 0)) (hP : 6 ≤ P.length)
    (habsent : _get_request_data m rid sec = none) :
    (handle m srcIp srcPort dbg resolved
      (u32_be u1 ++ u32_be rid ++ u32_be sec ++ u32_be probe ++ u32_be N ++ P)).isSent =
      true ∧
    handle m srcIp srcPort dbg resolved
      (u32_be u1 ++ u32_be rid ++ u32_be sec ++ u32_be probe ++ u32_be N ++ P) =
    handle [] srcIp srcPort dbg resolved
      (u32_be u1 ++ u32_be rid ++ u32_be sec ++ u32_be probe ++ u32_be N ++ P) := by
  have hb : u32_be u1 ++ u32_be rid ++ u32_be sec ++ u32_be probe ++ u32_be N ++ P =
      u32_be u1 ++ (u32_be rid ++ (u32_be sec ++ (u32_be probe ++ (u32_be N ++ P)))) := by
    simp [List.append_assoc]
  constructor
  · rw [hb, handle_v2_eq m srcIp srcPort dbg resolved u1 rid sec probe N P
      hu1 hrid hsec hprobe hN hns hP]
    rfl
  · rfl

/-- C2 witness: the amended statement at the counterexample's input. -/
theorem c2_witness :
    (handle [((9, 9), ⟨2, 1000, 1⟩)] ⟨203, 0, 113, 9⟩ 5555 false none
      (u32_be 2 ++ u32_be 2 ++ u32_be 5 ++ u32_be 10 ++ u32_be 10 ++
        List.replicate 50 7)).isSent = true ∧
    handle [((9, 9), ⟨2, 1000, 1⟩)] ⟨203, 0, 113, 9⟩ 5555 false none
      (u32_be 2 ++ u32_be 2 ++ u32_be 5 ++ u32_be 10 ++ u32_be 10 ++
        List.replicate 50 7) =
    handle [] ⟨203, 0, 113, 9⟩ 5555 false none
      (u32_be 2 ++ u32_be 2 ++ u32_be 5 ++ u32_be 10 ++ u32_be 10 ++
        List.replicate 50 7) :=
  c2_no_lookup_always_responds [((9, 9), ⟨2, 1000, 1⟩)] ⟨203, 0, 113, 9⟩ 5555 false none
    2 2 5 10 10 (List.replicate 50 7) (by norm_num) (by norm_num) (by norm_num)
    (by norm_num) (by norm_num) (by decide) (by decide) (by decide)

/-! ## Claim C3 -/

/-- C3 counterexample: a 16-byte datagram (header only, non-sentinel token)
is at least 16 bytes long, yet `handle` does not build and send a response —
the V2 body read `get_u32` panics on the empty body. -/
theorem c3_counterexample :
    (u32_be 2 ++ u32_be 2 ++ u32_be 5 ++ u32_be 9).length = 16 ∧
    handle [] ⟨203, 0, 113, 9⟩ 5555 false none
      (u32_be 2 ++ u32_be 2 ++ u32_be 5 ++ u32_be 9) = .panicked := by
  decide

/-- C3 amended: packets shorter than 16 bytes are dropped without a
response; a packet of at least 16 bytes is decoded and answered without
panicking provided its body is at least 4 bytes and, in the non-sentinel
branch, its padding payload is at least 6 bytes (total length at least 20,
resp. 26); shorter bodies make the handler panic instead. -/
theorem c3_totality_bounds (m : QosTable) (srcIp : Ipv4) (srcPort : Nat) (dbg : Bool)
    (resolved : Option Ipv4) (buf : List Nat) :
    (buf.length < 16 → handle m srcIp srcPort dbg resolved buf = .dropped) ∧
    (16 ≤ buf.length →
      (get_u32_be (buf.drop 4) = 1 ∧ get_u32_be (buf.drop 8) = 0) ∧ 20 ≤ buf.length ∨
        ¬(get_u32_be (buf.drop 4) = 1 ∧ get_u32_be (buf.drop 8) = 0) ∧ 26 ≤ buf.length →
      (handle m srcIp srcPort dbg resolved buf).isSent = true) := by
  constructor
  · intro h
    simp [handle, h]
  · intro h16 hcase
    rcases hcase with ⟨hsent, h20⟩ | ⟨hns, h26⟩
    · simp only [handle]
      rw [if_neg (by omega), if_pos hsent, if_neg (by simp [List.length_drop]; omega)]
      rfl
    · simp only [handle]
      rw [if_neg (by omega), if_neg hns, if_neg (by simp [List.length_drop]; omega),
        if_neg (by simp [List.length_drop]; omega)]
      rfl

/-- C3 witness: the amended statement at a 26-byte non-sentinel packet. -/
theorem c3_witness :
    (handle [] ⟨203, 0, 113, 9⟩ 5555 false none
      (u32_be 2 ++ u32_be 2 ++ u32_be 5 ++ u32_be 9 ++ u32_be 3 ++
        [1, 2, 3, 4, 5, 6])).isSent = true :=
  (c3_totality_bounds [] ⟨203, 0, 113, 9⟩ 5555 false none
    (u32_be 2 ++ u32_be 2 ++ u32_be 5 ++ u32_be 9 ++ u32_be 3 ++ [1, 2, 3, 4, 5, 6])).2
    (by decide) (Or.inr ⟨by decide, by decide⟩)

/-! ## Claim C6 -/

theorem nextCounter_lt (c : Nat) : nextCounter c < 2 ^ 32 :=
  Nat.mod_lt _ (by norm_num)

/-- Iterating the wrapping `NEXT_ID` increment adds modulo `2 ^ 32`. -/
theorem nextCounter_iterate (n c : Nat) (h : c < 2 ^ 32) :
    nextCounter^[n] c = (c + n) % 2 ^ 32 := by
  induction n generalizing c with
  | zero => simpa using (Nat.mod_eq_of_lt h).symm
  | succ k ih =>
    rw [Function.iterate_succ_apply, ih _ (nextCounter_lt c)]
    simp only [nextCounter]
    omega

/-- C6 counterexample: the `NEXT_ID` counter starts at 2 and wraps modulo
`2 ^ 32`, so after `2 ^ 32 - 1` allocations its value is 1; at that state a
random draw with low 16 bits zero makes the generator return exactly the
reserved sentinel `(1, 0)` (no table can block it: no entry with id 1 was
ever inserted before the wrap).  Ids are also reused after the wrap, against
the claimed strict monotonicity. -/
theorem c6_counterexample :
    nextCounter^[2 ^ 32 - 1] NEXT_ID_INIT = 1 ∧
    create_request_data [] 1 2 7777 1 [0] =
      some ((1, 0), [((1, 0), ⟨2, 7777, 1⟩)], 2) := by
  constructor
  · rw [show NEXT_ID_INIT = 2 from rfl, nextCounter_iterate _ 2 (by norm_num)]
    decide
  · decide

/-- C6 amended: as long as the counter has not wrapped (its value `c`
satisfies `2 ≤ c < 2 ^ 32`), both generators return a token whose id is the
counter value — hence at least 2, so never the sentinel `(1, 0)` — and step
the counter to `(c + 1) % 2 ^ 32`, which is the strictly larger `c + 1`
whenever no wrap occurs. -/
theorem c6_no_sentinel_prewrap (m1 : QosTable) (m2 : FirewallTable)
    (c q p v ch : Nat) (d1 d2 : List Nat) (hc2 : 2 ≤ c) (hub : c < 2 ^ 32) :
    (∀ tok tbl c2, create_request_data m1 c q p v d1 = some (tok, tbl, c2) →
      tok ≠ (1, 0) ∧ tok.1 = c ∧ c2 = nextCounter c ∧ (c + 1 < 2 ^ 32 → c2 = c + 1)) ∧
    (∀ tok tbl c2, create_firewall_data m2 c ch d2 = some (tok, tbl, c2) →
      tok ≠ (1, 0) ∧ tok.1 = c ∧ c2 = nextCounter c ∧ (c + 1 < 2 ^ 32 → c2 = c + 1)) := by
  constructor
  · intro tok tbl c2 h
    simp only [create_request_data] at h
    cases hf : findSecretQos m1 c d1 with
    | none => rw [hf] at h; exact absurd h (by simp)
    | some s =>
      rw [hf] at h
      simp only [Option.some.injEq, Prod.mk.injEq] at h
      obtain ⟨htok, htbl, hc2eq⟩ := h
      subst htok
      refine ⟨?_, rfl, hc2eq.symm, ?_⟩
      · intro hbad
        have hc1 : c = 1 := congrArg Prod.fst hbad
        omega
      · intro hlt
        rw [← hc2eq]
        simp only [nextCounter]
        omega
  · intro tok tbl c2 h
    simp only [create_firewall_data] at h
    cases hf : findSecretFirewall m2 c d2 with
    | none => rw [hf] at h; exact absurd h (by simp)
    | some s =>
      rw [hf] at h
      simp only [Option.some.injEq, Prod.mk.injEq] at h
      obtain ⟨htok, htbl, hc2eq⟩ := h
      subst htok
      refine ⟨?_, rfl, hc2eq.symm, ?_⟩
      · intro hbad
        have hc1 : c = 1 := congrArg Prod.fst hbad
        omega
      · intro hlt
        rw [← hc2eq]
        simp only [nextCounter]
        omega

/-- C6 witness: the amended statement at counter value 2 with a zero draw. -/
theorem c6_witness :
    ((2, 0) : Nat × Nat) ≠ (1, 0) ∧ (2 : Nat) = 2 ∧ (3 : Nat) = nextCounter 2 ∧
      (2 + 1 < 2 ^ 32 → (3 : Nat) = 2 + 1) :=
  (c6_no_sentinel_prewrap [] [] 2 2 7777 1 0 [0] [0] (by norm_num) (by norm_num)).1
    (2, 0) [((2, 0), ⟨2, 7777, 1⟩)] 3 (by decide)

/-! ## Claim C7 -/

/-- Looking a token up after `clearRx` yields the same record with the
receiver removed. -/
theorem lookupFirewall_clearRx (m : FirewallTable) (id secret : Nat) :
    lookupFirewall (clearRx m id secret) id secret =
      (lookupFirewall m id secret).map (fun d => ⟨d.tx, none⟩) := by
  induction m with
  | nil => rfl
  | cons e rest ih =>
    obtain ⟨k, d⟩ := e
    by_cases hk : k = (id, secret)
    · subst hk
      simp [clearRx, lookupFirewall]
    · simpa [clearRx, lookupFirewall, hk] using ih

/-- C7: for an allocated token whose record still holds its receiver, the
first `take_firewall_rx` returns the receiver and clears the stored slot;
the second call on the same token returns nothing; and the sender side
remains available afterwards via `get_firewall_tx`. -/
theorem c7_take_rx_once (m : FirewallTable) (id secret : Nat) (d : QFirewallData) (r : Nat)
    (hfind : lookupFirewall m id secret = some d) (hrx : d.rx = some r) :
    take_firewall_rx m id secret = (some r, clearRx m id secret) ∧
    (take_firewall_rx (clearRx m id secret) id secret).1 = none ∧
    get_firewall_tx (clearRx m id secret) id secret = some d.tx := by
  refine ⟨?_, ?_, ?_⟩
  · simp [take_firewall_rx, hfind, hrx]
  · simp [take_firewall_rx, lookupFirewall_clearRx, hfind]
  · simp [get_firewall_tx, lookupFirewall_clearRx, hfind]

/-- C7 witness: the statement at a one-entry table holding channel 9. -/
theorem c7_witness :
    take_firewall_rx [((2, 5), ⟨9, some 9⟩)] 2 5 =
      (some 9, clearRx [((2, 5), ⟨9, some 9⟩)] 2 5) ∧
    (take_firewall_rx (clearRx [((2, 5), ⟨9, some 9⟩)] 2 5) 2 5).1 = none ∧
    get_firewall_tx (clearRx [((2, 5), ⟨9, some 9⟩)] 2 5) 2 5 =
      some (QFirewallData.mk 9 (some 9)).tx :=
  c7_take_rx_once [((2, 5), ⟨9, some 9⟩)] 2 5 ⟨9, some 9⟩ 9 (by decide) rfl

/-! ## Claim C8 -/

/-- The `firetype` loop, started from an accumulator with room, appends the
next messages up to the 5-address bound. -/
theorem firetypeLoop_eq (msgs : List SockAddr) : ∀ acc : List SockAddr, acc.length < 5 →
    firetypeLoop acc msgs = acc ++ msgs.take (5 - acc.length) := by
  induction msgs with
  | nil => intro acc h; simp [firetypeLoop]
  | cons a rest ih =>
    intro acc h
    simp only [firetypeLoop]
    by_cases h5 : 5 ≤ (acc ++ [a]).length
    · rw [if_pos h5]
      have h4 : acc.length = 4 := by simp at h5; omega
      rw [show 5 - acc.length = 1 by omega]
      simp [List.take]
    · rw [if_neg h5]
      have hlt : (acc ++ [a]).length < 5 := by omega
      rw [ih _ hlt]
      have hs : 5 - acc.length = (5 - (acc ++ [a]).length) + 1 := by
        simp at h5 ⊢
        omega
      rw [hs]
      simp [List.append_assoc, List.take_succ_cons]

/-- C8: the Firewall-Type Coordinator's collection loop returns exactly the
first messages the channel delivers up to 5 — it stops at 5 even if more
are available, and returns everything delivered when the channel closes
earlier; in particular it never accumulates more than 5 addresses. -/
theorem c8_firetype_collects_take5 (msgs : List SockAddr) :
    firetypeCollect msgs = msgs.take 5 ∧ (firetypeCollect msgs).length ≤ 5 := by
  have h := firetypeLoop_eq msgs [] (by simp)
  constructor
  · simpa [firetypeCollect] using h
  · rw [firetypeCollect, h]
    simp [List.length_take]

/-! ## Claim C9 -/

/-- When every endpoint attempt fails, the endpoint loop yields nothing. -/
theorem tryEndpoints_of_all_fail (outcomes : List (Option Ipv4))
    (h : ∀ o ∈ outcomes, o = none) : tryEndpoints outcomes = none := by
  induction outcomes with
  | nil => rfl
  | cons o rest ih =>
    cases o with
    | none => exact ih fun x hx => h x (List.mem_cons_of_mem _ hx)
    | some ip => exact absurd (h _ (List.mem_cons_self _ _)) (by simp)

/-- C9 counterexample: with a stale (unset) cache and both external
endpoints failing, the source's `public_address` returns nothing and leaves
the cache unchanged, while the spec's `resolve` contract would have fallen
back to the available local interface address `10.0.0.5` — the code has no
local-interface fallback. -/
theorem c9_counterexample :
    public_address .unset 100 [none, none] = (none, .unset) ∧
    resolve_spec .unset 100 [none, none] (some ⟨10, 0, 0, 5⟩) =
      (some ⟨10, 0, 0, 5⟩, .set ⟨10, 0, 0, 5⟩ (100 + ADDR_CACHE_TIME)) := by
  decide

/-- C9 amended: when the cache is stale (unset, or expired at the current
time) and every external endpoint fails to yield a valid IPv4 address,
`public_address` returns nothing and leaves the cache unchanged; there is no
further fallback of any kind. -/
theorem c9_no_local_fallback (cache : PublicAddrCache) (now : Nat)
    (outcomes : List (Option Ipv4))
    (hstale : ∀ v e, cache = .set v e → e ≤ now)
    (hfail : ∀ o ∈ outcomes, o = none) :
    public_address cache now outcomes = (none, cache) := by
  have ht := tryEndpoints_of_all_fail outcomes hfail
  cases cache with
  | unset => simp [public_address, ht]
  | set v e =>
    have he : e ≤ now := hstale v e rfl
    simp [public_address, ht, Nat.not_lt.mpr he]

/-- C9 witness: the amended statement at an unset cache with two failing
endpoints. -/
theorem c9_witness : public_address .unset 0 [none, none] = (none, .unset) :=
  c9_no_local_fallback .unset 0 [none, none]
    (fun v e h => PublicAddrCache.noConfusion h) (by decide)

/-! ## Claim C10 -/

/-- Any secret selected by the QoS drawing loop is a `u16` value. -/
theorem findSecretQos_lt (m : QosTable) (id : Nat) (draws : List Nat) (s : Nat)
    (h : findSecretQos m id draws = some s) : s < 2 ^ 16 := by
  induction draws with
  | nil => simp [findSecretQos] at h
  | cons d rest ih =>
    simp only [findSecretQos] at h
    cases hc : containsKeyQos m (id, d % 2 ^ 16) with
    | true => rw [hc] at h; simp at h; exact ih h
    | false =>
      rw [hc] at h
      simp at h
      omega

/-- Any secret selected by the firewall drawing loop is a `u16` value. -/
theorem findSecretFirewall_lt (m : FirewallTable) (id : Nat) (draws : List Nat) (s : Nat)
    (h : findSecretFirewall m id draws = some s) : s < 2 ^ 16 := by
  induction draws with
  | nil => simp [findSecretFirewall] at h
  | cons d rest ih =>
    simp only [findSecretFirewall] at h
    cases hc : containsKeyFirewall m (id, d % 2 ^ 16) with
    | true => rw [hc] at h; simp at h; exact ih h
    | false =>
      rw [hc] at h
      simp at h
      omega

/-- C10: every `request_secret` issued by `create_request_data` or
`create_firewall_data` is strictly less than 65536 — the generator keeps
only the low 16 bits of each random `u32` draw. -/
theorem c10_secret_fits_16_bits (m1 : QosTable) (m2 : FirewallTable)
    (c q p v ch : Nat) (d1 d2 : List Nat) :
    (∀ tok tbl c2, create_request_data m1 c q p v d1 = some (tok, tbl, c2) →
      tok.2 < 65536) ∧
    (∀ tok tbl c2, create_firewall_data m2 c ch d2 = some (tok, tbl, c2) →
      tok.2 < 65536) := by
  constructor
  · intro tok tbl c2 h
    simp only [create_request_data] at h
    cases hf : findSecretQos m1 c d1 with
    | none => rw [hf] at h; exact absurd h (by simp)
    | some s =>
      rw [hf] at h
      simp only [Option.some.injEq, Prod.mk.injEq] at h
      obtain ⟨⟨_, htok2⟩, _, _⟩ := h
      have := findSecretQos_lt m1 c d1 s hf
      omega
  · intro tok tbl c2 h
    simp only [create_firewall_data] at h
    cases hf : findSecretFirewall m2 c d2 with
    | none => rw [hf] at h; exact absurd h (by simp)
    | some s =>
      rw [hf] at h
      simp only [Option.some.injEq, Prod.mk.injEq] at h
      obtain ⟨⟨_, htok2⟩, _, _⟩ := h
      have := findSecretFirewall_lt m2 c d2 s hf
      omega

/-- C10 witness: the statement at a concrete allocation whose draw is 5. -/
theorem c10_witness : (5 : Nat) < 65536 :=
  (c10_secret_fits_16_bits [] [] 2 2 7777 1 0 [5] [5]).1
    (2, 5) [((2, 5), ⟨2, 7777, 1⟩)] 3 (by decide)

end PocketRelayQoS
